import Mathlib

/-!
Shallow embedding of the Compliance Sentinel enforcement/reconciliation core
(`src/sentinel`): the condition evaluator (`tools/enforcement_tools.py`), the
rule reconciler and lifecycle manager (`dao/rule_dao.py`, `dao/vector_store.py`)
and the scan driver (`agents/enforcement_agent.py`, `agents/ingestion_agent.py`).

External effects (target-database queries, the LLM oracle, the vector index's
similarity scoring) are passed in as explicit oracle functions; Python floats
are modelled as rationals; Python exceptions of fallible calls are modelled as
`Except`/`Option` results; Python dicts with `.get` defaults are modelled as
structures of `Option` fields.
-/

namespace Sentinel

/-- Python string truthiness for an optional string field:
`condition.get(k)` is falsy when the key is absent or the value is `""`. -/
def truthyStr : Option String → Bool
  | none => false
  | some s => !s.isEmpty

/-- Python `f"{x}"` rendering of an optional string: `None` prints as "None". -/
def optStr : Option String → String
  | none => "None"
  | some s => s

/-- Python `needle in hay` on lists of characters (contiguous substring). -/
def strContainsAux (needle : List Char) : List Char → Bool
  | [] => needle.isEmpty
  | c :: t => needle.isPrefixOf (c :: t) || strContainsAux needle t

/-- Python `needle in hay` on strings. -/
def pyIn (needle hay : String) : Bool :=
  strContainsAux needle.data hay.data

/-- Python `str.lower()` (ASCII case folding, structurally recursive so that
concrete evaluations reduce; the data of this repository is ASCII). -/
def pyLower (s : String) : String :=
  ⟨s.data.map Char.toLower⟩

/-- Model of `config.py` `Settings` — only the fields the core reads. -/
structure Settings where
  similarity_high : ℚ
  similarity_mid : ℚ
  max_relevant_rules_per_table : Nat
  llm_fallback_confidence_threshold : ℚ

/-- Model of the `config.py` defaults: SIMILARITY_HIGH=0.92, SIMILARITY_MID=0.75,
MAX_RELEVANT_RULES=12, LLM_FALLBACK_THRESHOLD=0.6. -/
def settings : Settings :=
  { similarity_high := 0.92
    similarity_mid := 0.75
    max_relevant_rules_per_table := 12
    llm_fallback_confidence_threshold := 0.6 }

/-- A JSON-ish value, for the evidence payloads the tools build. -/
inductive JVal where
  | s (v : String)
  | b (v : Bool)
  | q (v : ℚ)
  | arr (v : List JVal)
  | obj (v : List (String × JVal))

/-- One violation-condition dict, as read by the enforcement tools:
every field is accessed through `.get` with a default, so all are optional. -/
structure Condition where
  condition_id : Option String := none
  data_category : Option String := none
  trigger : Option String := none
  check_type : Option String := none
  sql_check_template : Option String := none
  regex_pattern : Option String := none
  severity : Option String := none
  remediation_template : Option String := none
  rule_id : Option String := none
deriving DecidableEq

/-- One column's classification record inside the schema map. -/
structure ColMeta where
  compliance_category : Option String := none
  sensitivity : Option String := none
  data_type : Option String := none
deriving DecidableEq

/-- Model of `schema_map`: table name → column name → classification record
(a Python dict in insertion order, modelled as an association list). -/
abbrev SchemaMap := List (String × List (String × ColMeta))

/-- One entry of the `matches` list returned by `check_schema_map_match`. -/
structure SchemaMatch where
  table : String
  column : String
  category : String
  sensitivity : String
deriving DecidableEq

/-- Return value of `check_schema_map_match`; `matchList` models the
source's "matches" key (`matches` is a reserved token in Lean). -/
structure MatchResult where
  data_category : String
  matchList : List SchemaMatch
deriving DecidableEq

/-- Model of `enforcement_tools.check_schema_map_match`: case-insensitive substring
match of the condition's `data_category` against each column's
`compliance_category`, over every table of the schema map. -/
def check_schema_map_match (schema_map : SchemaMap) (condition : Condition) :
    MatchResult :=
  let data_category := condition.data_category.getD ""
  let matchList := schema_map.flatMap fun tc =>
    tc.2.filterMap fun cm =>
      let col_category := cm.2.compliance_category.getD ""
      if pyIn (pyLower data_category) (pyLower col_category) then
        some { table := tc.1, column := cm.1, category := col_category,
               sensitivity := cm.2.sensitivity.getD "UNKNOWN" }
      else none
  { data_category := data_category, matchList := matchList }

/-- Model of `enforcement_tools.EU_REGIONS` (a Python set; modelled as the literal's
element list). -/
def EU_REGIONS : List String :=
  ["eu-west-1", "eu-west-2", "eu-west-3", "eu-central-1",
   "eu-north-1", "eu-south-1", "eu-central-2", "eu-south-2",
   "europe-west1", "europe-west2", "europe-west3", "europe-west4",
   "europe-north1", "europe-central2"]

/-- Return value of `check_metadata_condition`. -/
structure MetaCheckResult where
  trigger : String
  triggered : Bool
  evidence : List (String × JVal)

/-- Model of `enforcement_tools.check_metadata_condition`: only the triggers
`storage_outside_eu` and `no_adequacy_decision` are known; any other trigger
leaves `triggered = False`. -/
def check_metadata_condition (server_region : String) (condition : Condition) :
    MetaCheckResult :=
  let trigger := condition.trigger.getD ""
  if trigger = "storage_outside_eu" then
    let is_outside := !(EU_REGIONS.contains (pyLower server_region))
    { trigger := trigger, triggered := is_outside,
      evidence := [("server_region", .s server_region),
                   ("eu_regions_checked", .arr ((EU_REGIONS.take 5).map .s))] }
  else if trigger = "no_adequacy_decision" then
    { trigger := trigger, triggered := false,
      evidence := [("note", .s "Adequacy decision check requires country-level config")] }
  else
    { trigger := trigger, triggered := false, evidence := [] }

/-- One result row of a SQL check (`dict(r._mapping)` in the source). -/
abbrev SqlRow := List (String × JVal)

/-- Result dict of `run_sql_check` / `_try_execute`. -/
structure SqlRunResult where
  status : String
  table : String
  column : String
  rows : List SqlRow := []
  error : String := ""
  sql : String
  sql_rewritten : Option String := none
  rewrite_reason : Option String := none

/-- Model of `enforcement_tools._try_execute`: run SQL against the target connection;
the connection is modelled by the executor oracle `execO`, whose `.error`
outcome models a raised exception (stringified). -/
def try_execute (execO : String → Except String (List SqlRow))
    (table column sql : String) : SqlRunResult :=
  match execO sql with
  | .ok rows => { status := "ok", table := table, column := column, rows := rows, sql := sql }
  | .error e => { status := "error", table := table, column := column, error := e, sql := sql }

/-- Python `str.replace` on character lists, fuel-bounded so the recursion is
structural (the fuel is the list length, which never runs out first); for
empty patterns Python would interleave the replacement, but every pattern the
source substitutes ("{table}", "{column}", ...) is non-empty. -/
def pyReplaceAux (pat rep : List Char) : Nat → List Char → List Char
  | _, [] => []
  | 0, l => l
  | fuel + 1, c :: t =>
      if pat.isPrefixOf (c :: t) && !pat.isEmpty then
        rep ++ pyReplaceAux pat rep fuel ((c :: t).drop pat.length)
      else c :: pyReplaceAux pat rep fuel t

/-- Python `s.replace(pat, rep)` (all non-overlapping occurrences). -/
def pyReplace (s pat rep : String) : String :=
  ⟨pyReplaceAux pat.data rep.data s.data.length s.data⟩

/-- Structured output of the SQL-rewrite oracle (`MySQLSafeQuery`). -/
structure MySQLSafeQuery where
  sql : String
  changed : Bool
  reason : String

/-- Model of `enforcement_tools.run_sql_check`: substitute `{table}`/`{column}`
placeholders, run once; on failure ask the rewrite oracle (`none` models the
rewrite call raising) and, only if it reports `changed`, retry once with the
rewritten SQL; otherwise return the first attempt's error result. -/
def run_sql_check (execO : String → Except String (List SqlRow))
    (rewriteO : String → Option MySQLSafeQuery)
    (table column sql_template : String) : SqlRunResult :=
  let sql := pyReplace (pyReplace (pyReplace (pyReplace
      sql_template "{table}" table) "{TABLE}" table) "{column}" column) "{COLUMN}" column
  let result := try_execute execO table column sql
  if result.status = "ok" then result
  else
    match rewriteO sql with
    | some rewritten =>
        if rewritten.changed then
          let retry := try_execute execO table column rewritten.sql
          { retry with sql_rewritten := some rewritten.sql,
                       rewrite_reason := some rewritten.reason }
        else result
    | none => result

/-- Result dict of `run_regex_check`; `matchFrac` models the source's
"match_ratio" key. -/
structure RegexRunResult where
  status : String
  table : String
  column : String
  matchFrac : ℚ := 0
  sample_count : Nat := 0
  triggered : Bool := false
  error : String := ""

/-- Model of `enforcement_tools.run_regex_check`: fetch up to `sample_size` rows of the
column (`sampleO`; `.error` models a raised exception, `none` entries model SQL
NULLs), compile the pattern (`regexO`; `none` models `re.compile` raising),
drop NULLs, and trigger when the match ratio reaches 0.5 (0.0 if no samples). -/
def run_regex_check (sampleO : String → String → Except String (List (Option String)))
    (regexO : String → Option (String → Bool))
    (table column regex_pattern : String) : RegexRunResult :=
  match regexO regex_pattern with
  | none => { status := "error", table := table, column := column,
              error := "regex compile failed" }
  | some pat =>
    match sampleO table column with
    | .error e => { status := "error", table := table, column := column, error := e }
    | .ok rows =>
        let samples := rows.filterMap id
        let match_count := (samples.filter pat).length
        let frac : ℚ := if samples.isEmpty then 0 else (match_count : ℚ) / samples.length
        { status := "ok", table := table, column := column,
          matchFrac := frac, sample_count := samples.length,
          triggered := decide (frac ≥ (0.5 : ℚ)) }

/-- Structured output of the fallback classifier (`ViolationClassification`). -/
structure ViolationClassification where
  is_violation : Bool
  confidence : ℚ
  reasoning : String
deriving DecidableEq

/-- Python `round(x, 3)` on the model's rationals. -/
def roundTo3 (q : ℚ) : ℚ := (round (q * 1000) : ℤ) / 1000

/-- Model of `enforcement_tools.llm_fallback_classify`: ask the classification oracle
(`classifyO`, keyed by the prompt inputs; `none` models the call raising) and
round the confidence to 3 decimals; a failed call yields
`{is_violation := false, confidence := 0}`. -/
def llm_fallback_classify
    (classifyO : String → String → List String → String → Option ViolationClassification)
    (column_name data_type : String) (sample_values : List String)
    (condition_description : String) : ViolationClassification :=
  match classifyO column_name data_type sample_values condition_description with
  | some result => { result with confidence := roundTo3 result.confidence }
  | none => { is_violation := false, confidence := 0,
              reasoning := "LLM fallback error" }

/-- The external effects `evaluate_condition_chain` can reach: the target
database connection (SQL execution and row sampling), the regex engine, and
the two LLM-oracle contracts (SQL rewrite and fallback classification). -/
structure Oracles where
  execO : String → Except String (List SqlRow)
  rewriteO : String → Option MySQLSafeQuery
  sampleO : String → String → Except String (List (Option String))
  regexO : String → Option (String → Bool)
  classifyO : String → String → List String → String → Option ViolationClassification

/-- The `evidence_snapshot` nested dict of `_build_evidence`. -/
structure EvidenceSnapshot where
  check_method : String
  condition_id : String
  raw : List (String × JVal)

/-- A violation evidence dict, as built by `_build_evidence` (plus the
`db_connection_id` key stamped on it by the scan loop). -/
structure Evidence where
  table_name : String
  column_name : String
  rule_id : String
  condition_matched : String
  severity : String
  remediation_template : String
  evidence_snapshot : EvidenceSnapshot
  db_connection_id : Option String := none

/-- Model of `enforcement_tools._build_evidence`. -/
def build_evidence (table column : String) (condition : Condition)
    (raw_result : List (String × JVal)) (method : String) : Evidence :=
  { table_name := table
    column_name := column
    rule_id := condition.rule_id.getD ""
    condition_matched := condition.trigger.getD ""
    severity := condition.severity.getD "MEDIUM"
    remediation_template := condition.remediation_template.getD ""
    evidence_snapshot :=
      { check_method := method, condition_id := condition.condition_id.getD "",
        raw := raw_result } }

/-- The `run_regex_check` result dict as it is embedded into evidence. -/
def regexResultRaw (r : RegexRunResult) : List (String × JVal) :=
  [("status", .s r.status), ("table", .s r.table), ("column", .s r.column),
   ("match_ratio", .q r.matchFrac), ("sample_count", .q r.sample_count),
   ("triggered", .b r.triggered)]

/-- The `llm_fallback_classify` result dict as it is embedded into evidence. -/
def classificationRaw (r : ViolationClassification) : List (String × JVal) :=
  [("is_violation", .b r.is_violation), ("confidence", .q r.confidence),
   ("reasoning", .s r.reasoning)]

/-- The declared data type the llm-fallback branch reads from the schema map
(`schema_map.get(table, {}).get(column, {}).get("data_type", "UNKNOWN")`). -/
def llm_data_type (schema_map : SchemaMap) (table column : String) : String :=
  ((schema_map.lookup table).bind
    (fun cols => (cols.lookup column).bind (·.data_type))).getD "UNKNOWN"

/-- The condition description the llm-fallback branch builds
(`f"{condition.get('trigger')} on {condition.get('data_category')}"`). -/
def llm_description (cond : Condition) : String :=
  optStr cond.trigger ++ " on " ++ optStr cond.data_category

/-- Model of `enforcement_tools.evaluate_condition_chain`: dispatch on
`condition.get("check_type", "sql")` — metadata, then SQL (only with a truthy
template), then regex (only with a truthy pattern), then LLM fallback; return
evidence on trigger, else `None`. The target connection string of the source
is baked into the oracles. -/
def evaluate_condition_chain (o : Oracles) (server_region : String)
    (schema_map : SchemaMap) (condition : Condition)
    (table column : String) : Option Evidence :=
  let check_type := condition.check_type.getD "sql"
  if check_type = "metadata" then
    let result := check_metadata_condition server_region condition
    if result.triggered then
      some (build_evidence table column condition result.evidence "metadata")
    else none
  else if check_type = "sql" ∧ truthyStr condition.sql_check_template then
    let result := run_sql_check o.execO o.rewriteO table column
      (condition.sql_check_template.getD "")
    if result.status = "ok" ∧ result.rows.isEmpty = false then
      some (build_evidence table column condition
        [("rows", .arr (result.rows.map .obj))] "sql")
    else none
  else if check_type = "regex" ∧ truthyStr condition.regex_pattern then
    let result := run_regex_check o.sampleO o.regexO table column
      (condition.regex_pattern.getD "")
    if result.triggered then
      some (build_evidence table column condition (regexResultRaw result) "regex")
    else none
  else if check_type = "llm_fallback" then
    let data_type := llm_data_type schema_map table column
    let result := llm_fallback_classify o.classifyO column data_type []
      (llm_description condition)
    if result.is_violation = true ∧ result.confidence ≥ settings.llm_fallback_confidence_threshold then
      some (build_evidence table column condition (classificationRaw result) "llm_fallback")
    else none
  else none

/-- Model of `models/rule.py` `RuleStatus`. -/
inductive RuleStatus where
  | ACTIVE
  | DEPRECATED
  | DRAFT
deriving DecidableEq

/-- Model of `RuleStatus.value` (the enum's string value). -/
def RuleStatus.value : RuleStatus → String
  | .ACTIVE => "ACTIVE"
  | .DEPRECATED => "DEPRECATED"
  | .DRAFT => "DRAFT"

/-- Model of `models/rule.py` `Rule` — the columns the core reads and writes
(timestamps and dates are irrelevant to the claims and omitted). -/
structure Rule where
  rule_id : String
  rule_text : String
  source_doc : String
  article_ref : String
  version : Nat
  status : RuleStatus
  superseded_by : Option String := none
  obligation_type : String
  data_subject_scope : List String := []
  violation_conditions : List Condition
deriving DecidableEq

/-- The authoritative relational rule store, as a list of rows. -/
abbrev RuleDB := List Rule

/-- Model of `rule_dao.get_rule_by_id`: first row with the given primary key. -/
def get_rule_by_id (db : RuleDB) (rule_id : String) : Option Rule :=
  db.find? (fun r => r.rule_id = rule_id)

/-- Severity order of `rule_dao._extract_max_severity`: order CRITICAL>HIGH>MEDIUM>LOW (unknown
counts as MEDIUM); Python's `max` keeps the first maximal element. -/
def severity_order (s : String) : Nat :=
  if s = "CRITICAL" then 4
  else if s = "HIGH" then 3
  else if s = "MEDIUM" then 2
  else if s = "LOW" then 1
  else 2

/-- Model of `rule_dao._extract_max_severity` (empty condition list → "MEDIUM"). -/
def extract_max_severity (conditions : List Condition) : String :=
  match conditions with
  | [] => "MEDIUM"
  | c :: cs =>
    (cs.foldl (fun best c2 =>
        if severity_order (c2.severity.getD "MEDIUM") >
           severity_order (best.severity.getD "MEDIUM") then c2 else best) c
      ).severity.getD "MEDIUM"

/-- One point of the similarity index (`vector_store.py`): the point id is
`uuid5(rule_id)`, a bijective image of `rule_id`, so points are keyed by
`rule_id`; the stored vector embeds `rule_text`; the payload carries the
metadata written by `upsert_rule`. -/
structure VSPoint where
  rule_id : String
  rule_text : String
  source_doc : String
  article_ref : String
  status : String
  obligation_type : String
  severity : String
deriving DecidableEq

/-- The similarity index (Qdrant collection). -/
abbrev VectorStore := List VSPoint

/-- Model of `vector_store.upsert_rule`: replace the point with this id, or append. -/
def upsert_rule (vs : VectorStore) (p : VSPoint) : VectorStore :=
  if vs.any (fun q => q.rule_id = p.rule_id) then
    vs.map (fun q => if q.rule_id = p.rule_id then p else q)
  else vs ++ [p]

/-- Model of `vector_store.deprecate_rule_in_vector_store`: `set_payload` of
`status := "DEPRECATED"` on the point with this id — never a delete. -/
def deprecate_rule_in_vector_store (vs : VectorStore) (rule_id : String) :
    VectorStore :=
  vs.map (fun q => if q.rule_id = rule_id then { q with status := "DEPRECATED" } else q)

/-- One hit of `retrieve_relevant_rules` (`{"rule_id": …, "score": …, **payload}`). -/
structure RetrievedHit where
  rule_id : String
  score : ℚ
  payload : VSPoint
deriving DecidableEq

/-- Descending insertion by score (the index returns hits best-first; the
cosine scoring itself is the oracle `scoreO`). -/
def insertByScore (h : RetrievedHit) : List RetrievedHit → List RetrievedHit
  | [] => [h]
  | x :: xs => if h.score ≥ x.score then h :: x :: xs else x :: insertByScore h xs

/-- Sort hits by descending score. -/
def sortByScore : List RetrievedHit → List RetrievedHit
  | [] => []
  | x :: xs => insertByScore x (sortByScore xs)

/-- Model of `vector_store.retrieve_relevant_rules`: filter the index on
`status = status_filter` ("ACTIVE" by default), score each point's embedded
text against the query (`scoreO`), and return the best `top_k` hits
(`settings.max_relevant_rules_per_table` when `top_k` is `None`). -/
def retrieve_relevant_rules (scoreO : String → String → ℚ) (vs : VectorStore)
    (schema_context : String) (top_k : Option Nat)
    (status_filter : String := "ACTIVE") : List RetrievedHit :=
  let k := top_k.getD settings.max_relevant_rules_per_table
  let scored := (vs.filter (fun p => p.status = status_filter)).map
    (fun p => { rule_id := p.rule_id, score := scoreO schema_context p.rule_text,
                payload := p : RetrievedHit })
  (sortByScore scored).take k

/-- Model of the result of `vector_store.find_nearest_rule` (`None` when the index is empty). -/
structure NearestHit where
  rule_id : String
  score : ℚ
deriving DecidableEq

/-- Model of the result dict of `rule_dao.reconcile_version` (`action` is one of
"new" / "supersede" / "human_review"). -/
structure ReconcileResult where
  action : String
  existing_rule_id : Option String := none
  score : Option ℚ := none
deriving DecidableEq

/-- Model of `rule_dao.reconcile_version`: the nearest-neighbour lookup
(`find_nearest_rule`, an external similarity query) is passed in as `nearest`;
classify its score against the two configured thresholds. -/
def reconcile_version (nearest : Option NearestHit) : ReconcileResult :=
  match nearest with
  | none => { action := "new" }
  | some n =>
    if n.score ≥ settings.similarity_high then
      { action := "human_review", existing_rule_id := some n.rule_id,
        score := some n.score }
    else if n.score ≥ settings.similarity_mid then
      { action := "supersede", existing_rule_id := some n.rule_id,
        score := some n.score }
    else
      { action := "new" }

/-- The vector-store point `insert_rule`/`supersede_rule` upsert for a rule. -/
def rulePoint (rule : Rule) : VSPoint :=
  { rule_id := rule.rule_id, rule_text := rule.rule_text,
    source_doc := rule.source_doc, article_ref := rule.article_ref,
    status := rule.status.value, obligation_type := rule.obligation_type,
    severity := extract_max_severity rule.violation_conditions }

/-- The two mutated persistence components: the authoritative relational rule
store (committed rows) and the similarity index. -/
structure SysState where
  dbc : RuleDB
  vs : VectorStore
deriving DecidableEq

/-- Model of `rule_dao.insert_rule`: add the row, commit, then sync the index. -/
def insert_rule (st : SysState) (rule : Rule) : SysState :=
  { dbc := st.dbc ++ [rule], vs := upsert_rule st.vs (rulePoint rule) }

/-- Fault-injection points for `supersede_rule`: `noFail` is the normal run;
`atFlushNew` / `atFlushOld` model an `IntegrityError` raised by the first /
second `db.flush()`; `atCommit` models one raised by `db.commit()`. -/
inductive FailPt where
  | noFail
  | atFlushNew
  | atFlushOld
  | atCommit
deriving DecidableEq

/-- Model of `rule_dao.supersede_rule`: add+flush the new rule, look the old rule up in
the session, mark it DEPRECATED with a forward reference, flush, call
`deprecate_rule_in_vector_store` (an immediate external write), then commit
and upsert the new rule's index point. Any injected `IntegrityError` is caught
and answered with `db.rollback()` (the uncommitted transaction is discarded;
the committed store is kept) and a `None` result — the external vector-store
write is not transactional and is never undone. -/
def supersede_rule (failAt : FailPt) (st : SysState) (old_rule_id : String)
    (new_rule : Rule) : Option Rule × SysState :=
  if failAt = .atFlushNew then (none, st)
  else
    let txn1 := st.dbc ++ [new_rule]
    match get_rule_by_id txn1 old_rule_id with
    | some _ =>
      if failAt = .atFlushOld then (none, st)
      else
        let txn2 := txn1.map (fun r =>
          if r.rule_id = old_rule_id then
            { r with status := .DEPRECATED, superseded_by := some new_rule.rule_id }
          else r)
        let vs1 := deprecate_rule_in_vector_store st.vs old_rule_id
        if failAt = .atCommit then (none, { dbc := st.dbc, vs := vs1 })
        else
          (some new_rule,
           { dbc := txn2, vs := upsert_rule vs1 (rulePoint new_rule) })
    | none =>
      if failAt = .atCommit then (none, st)
      else
        (some new_rule,
         { dbc := txn1, vs := upsert_rule st.vs (rulePoint new_rule) })

/-- One decomposed candidate rule handed to `node_persist_rules`
(`states/state.py` `DecomposedRule` — the fields the persist node reads). -/
structure DecomposedRule where
  rule_id : String
  rule_text : String
  source_doc : String
  article_ref : String
  obligation_type : String
  data_subject_scope : List String := []
  violation_conditions : List Condition
deriving DecidableEq

/-- The loop body of `ingestion_agent.node_persist_rules` for one decomposed
rule: reconcile (the nearest-neighbour query result is `nearest`), build the
row — DRAFT exactly for "human_review", else ACTIVE — then supersede or
insert. -/
def node_persist_one_rule (failAt : FailPt) (nearest : Option NearestHit)
    (st : SysState) (rd : DecomposedRule) : SysState :=
  let reconcile := reconcile_version nearest
  let action := reconcile.action
  let new_rule : Rule :=
    { rule_id := rd.rule_id, rule_text := rd.rule_text,
      source_doc := rd.source_doc, article_ref := rd.article_ref,
      version := 1,
      status := if action = "human_review" then .DRAFT else .ACTIVE,
      obligation_type := rd.obligation_type,
      data_subject_scope := rd.data_subject_scope,
      violation_conditions := rd.violation_conditions }
  if action = "supersede" then
    (supersede_rule failAt st (reconcile.existing_rule_id.getD "") new_rule).2
  else
    insert_rule st new_rule

/-- One entry of `relevant_rules` built by `node_filter_relevant_tables`:
a similarity hit tagged with the table it was matched against
(`_matched_table` in the source). -/
structure REntry where
  rule_id : String
  score : ℚ
  matched_table : String
deriving DecidableEq

/-- The per-check call the scan loop guards with `try/except`: evaluating one
(condition, table, column) triple; `.error` models a raised exception
(stringified). `evaluate_condition_chain` itself never raises, but the model
keeps the guard faithful to the source. -/
abbrev EvalOracle := Condition → String → String → Except String (Option Evidence)

/-- The dedup-and-bulk-fetch prologue of `node_run_enforcement_checks`:
walk `relevant_rules`, fetch each unseen `rule_id` once, cache only the rules
the authoritative store actually has (`seen` is the ids already processed). -/
def build_cache_aux (ruleDb : RuleDB) (seen : List String) :
    List REntry → List (String × Rule)
  | [] => []
  | e :: rest =>
    if e.rule_id ∈ seen then build_cache_aux ruleDb seen rest
    else
      match get_rule_by_id ruleDb e.rule_id with
      | some r => (e.rule_id, r) :: build_cache_aux ruleDb (e.rule_id :: seen) rest
      | none => build_cache_aux ruleDb (e.rule_id :: seen) rest

/-- The rule cache of `node_run_enforcement_checks`. -/
def build_rule_cache (ruleDb : RuleDB) (entries : List REntry) :
    List (String × Rule) :=
  build_cache_aux ruleDb [] entries

/-- In-order concatenation of (accumulated-list, accumulated-list) pairs —
the semantics of appending to the two loop accumulators. -/
def pairJoin {α β : Type} (ps : List (List α × List β)) : List α × List β :=
  ps.foldr (fun p acc => (p.1 ++ acc.1, p.2 ++ acc.2)) ([], [])

/-- The innermost `try/except` body of the scan loop: evaluate one matched
column; on evidence, stamp `db_connection_id` and accumulate a violation; on a
raised exception, accumulate the stringified error message (which names the
entry's matched table). -/
def eval_match_step (evalO : EvalOracle) (dbConnId matched_table rid : String)
    (cond : Condition) (m : SchemaMatch) : List Evidence × List String :=
  match evalO cond m.table m.column with
  | .ok (some ev) => ([{ ev with db_connection_id := some dbConnId }], [])
  | .ok none => ([], [])
  | .error e =>
      ([], ["Enforcement check error " ++ matched_table ++ "." ++ m.column ++
            " rule " ++ rid ++ ": " ++ e])

/-- One condition of the scan loop: stamp the rule id onto the condition, run
the schema matcher over the whole schema map, and evaluate every match. -/
def per_condition (evalO : EvalOracle) (dbConnId : String)
    (schema_map : SchemaMap) (matched_table rid : String) (cond : Condition) :
    List Evidence × List String :=
  let condStamped := { cond with rule_id := some rid }
  pairJoin (((check_schema_map_match schema_map condStamped).matchList).map
    (eval_match_step evalO dbConnId matched_table rid condStamped))

/-- All conditions of one fetched rule (an empty condition list is skipped by
the source, which equals the empty join). -/
def per_rule (evalO : EvalOracle) (dbConnId : String) (schema_map : SchemaMap)
    (matched_table rid : String) (rule : Rule) : List Evidence × List String :=
  pairJoin (rule.violation_conditions.map
    (per_condition evalO dbConnId schema_map matched_table rid))

/-- One entry of the scan loop, against the prefetched cache: an id the cache
lacks is skipped. -/
def per_entry (evalO : EvalOracle) (dbConnId : String) (schema_map : SchemaMap)
    (cache : List (String × Rule)) (e : REntry) : List Evidence × List String :=
  match cache.lookup e.rule_id with
  | none => ([], [])
  | some rule => per_rule evalO dbConnId schema_map e.matched_table e.rule_id rule

/-- Model of `enforcement_agent.node_run_enforcement_checks`: build the cache, run the
loop over all entries, and return the violations plus the error list that
started as the state's accumulated errors. -/
def node_run_enforcement_checks (evalO : EvalOracle) (ruleDb : RuleDB)
    (schema_map : SchemaMap) (relevant_rules : List REntry)
    (errors0 : List String) (dbConnId : String) :
    List Evidence × List String :=
  let cache := build_rule_cache ruleDb relevant_rules
  let acc := pairJoin (relevant_rules.map
    (per_entry evalO dbConnId schema_map cache))
  (acc.1, errors0 ++ acc.2)

/-- The contribution of one entry expressed directly against the authoritative
store (the cache is a semantically transparent prefetch of it). -/
def per_entry_db (evalO : EvalOracle) (dbConnId : String)
    (schema_map : SchemaMap) (ruleDb : RuleDB) (e : REntry) :
    List Evidence × List String :=
  match get_rule_by_id ruleDb e.rule_id with
  | none => ([], [])
  | some rule => per_rule evalO dbConnId schema_map e.matched_table e.rule_id rule

/-- The violations one candidate rule id contributes each time it occurs in
`relevant_rules`, computed from the rule id alone (no matched table). -/
def rule_violation_set (evalO : EvalOracle) (dbConnId : String)
    (schema_map : SchemaMap) (ruleDb : RuleDB) (rid : String) : List Evidence :=
  match get_rule_by_id ruleDb rid with
  | none => []
  | some rule => (per_rule evalO dbConnId schema_map "" rid rule).1

/-- The per-violation `try/except` body of
`enforcement_agent.node_persist_violations`; `persistO` models
`persist_violation` (returning the new row id) and `.error` a raised
exception. -/
def persist_step (persistO : Evidence → Except String Nat) (v : Evidence) :
    List Nat × List String :=
  match persistO v with
  | .ok i => ([i], [])
  | .error e => ([], ["Violation persist failed: " ++ e])

/-- Model of `enforcement_agent.node_persist_violations`: persist every accumulated
violation, recording per-violation failures in the error list. -/
def node_persist_violations (persistO : Evidence → Except String Nat)
    (violations_found : List Evidence) (errors0 : List String) :
    List Nat × List String :=
  let acc := pairJoin (violations_found.map (persist_step persistO))
  (acc.1, errors0 ++ acc.2)

/-! Section Helper lemmas -/

/-- The empty string is a Python-substring of every string. -/
theorem strContainsAux_nil (l : List Char) : strContainsAux [] l = true := by
  cases l <;> simp [strContainsAux, List.isPrefixOf]

/-- Python `"" in hay` is `True` for every `hay`. -/
theorem pyIn_empty (hay : String) : pyIn "" hay = true := by
  simp [pyIn, strContainsAux_nil]

/-- A guarded `filterMap` whose guard always holds is a `map`. -/
theorem filterMap_if_true {α β : Type} (p : α → Bool) (f : α → β) (l : List α)
    (hp : ∀ a ∈ l, p a = true) :
    l.filterMap (fun a => if p a then some (f a) else none) = l.map f := by
  induction l with
  | nil => rfl
  | cons hd tl ih =>
    simp [List.filterMap_cons, hp hd (by simp), ih fun a ha => hp a (by simp [ha])]

/-! Section C3 — reconciliation threshold partition -/

/-- C3: `reconcile_version` partitions nearest-neighbour similarity scores
with no gap or overlap: `human_review` iff `s ≥ 0.92`, `supersede` iff
`0.75 ≤ s < 0.92`, `new` iff `s < 0.75`; the boundaries `0.92` and `0.75`
yield `human_review` and `supersede` respectively, and an empty corpus
(no nearest neighbour) yields `new`. -/
theorem reconcile_version_partition (rid : String) (s : ℚ) :
    (((reconcile_version (some ⟨rid, s⟩)).action = "human_review" ↔ (0.92 : ℚ) ≤ s) ∧
     ((reconcile_version (some ⟨rid, s⟩)).action = "supersede" ↔
        (0.75 : ℚ) ≤ s ∧ s < (0.92 : ℚ)) ∧
     ((reconcile_version (some ⟨rid, s⟩)).action = "new" ↔ s < (0.75 : ℚ))) ∧
    ((reconcile_version (some ⟨rid, s⟩)).action = "human_review" ∨
     (reconcile_version (some ⟨rid, s⟩)).action = "supersede" ∨
     (reconcile_version (some ⟨rid, s⟩)).action = "new") ∧
    (reconcile_version (some ⟨rid, (0.92 : ℚ)⟩)).action = "human_review" ∧
    (reconcile_version (some ⟨rid, (0.75 : ℚ)⟩)).action = "supersede" ∧
    (reconcile_version none).action = "new" := by
  have h92 : settings.similarity_high = (0.92 : ℚ) := by norm_num [settings]
  have h75 : settings.similarity_mid = (0.75 : ℚ) := by norm_num [settings]
  refine ⟨⟨?_, ?_, ?_⟩, ?_, ?_, ?_, rfl⟩ <;>
    · rcases le_or_lt (0.92 : ℚ) s with h1 | h1 <;>
      rcases le_or_lt (0.75 : ℚ) s with h2 | h2 <;>
      simp [reconcile_version, h92, h75, h1, h2, le_of_lt, not_le.mpr] <;>
      first
        | linarith
        | (intro h; linarith)
        | (constructor <;> intro h <;> first | linarith | simp_all)
        | norm_num [reconcile_version, h92, h75]

/-! Section C10 — empty data category matches every classified column -/

/-- C10: a condition whose `data_category` is absent or the empty string
matches every column of every table of the schema map: the returned matches
enumerate exactly the (table, column) pairs of the whole map, because the
empty string is a case-insensitive substring of every compliance category. -/
theorem check_schema_map_match_empty_category (schema_map : SchemaMap)
    (condition : Condition) (h : condition.data_category.getD "" = "") :
    (check_schema_map_match schema_map condition).matchList =
      schema_map.flatMap (fun tc => tc.2.map (fun cm =>
        { table := tc.1, column := cm.1,
          category := cm.2.compliance_category.getD "",
          sensitivity := cm.2.sensitivity.getD "UNKNOWN" })) := by
  have htl : pyLower "" = "" := rfl
  simp only [check_schema_map_match, h, htl]
  congr 1
  funext tc
  exact filterMap_if_true _ _ _ (fun a _ => pyIn_empty _)

/-- C10 witness: a concrete two-table schema map and a condition with no
`data_category`, evaluated through the theorem. -/
theorem check_schema_map_match_empty_category_witness :
    ({ } : Condition).data_category.getD "" = "" ∧
    (check_schema_map_match
        [("users", [("email", { compliance_category := some "PII_contact" }),
                    ("age", { compliance_category := some "Demographic" })]),
         ("orders", [("card", { compliance_category := some "Financial" })])]
        { }).matchList =
      [("users", [("email", ({ compliance_category := some "PII_contact" } : ColMeta)),
                  ("age", { compliance_category := some "Demographic" })]),
       ("orders", [("card", { compliance_category := some "Financial" })])].flatMap
        (fun tc => tc.2.map (fun cm =>
          { table := tc.1, column := cm.1,
            category := cm.2.compliance_category.getD "",
            sensitivity := cm.2.sensitivity.getD "UNKNOWN" })) :=
  ⟨rfl, check_schema_map_match_empty_category _ _ rfl⟩

/-! Section C4 — end-to-end metadata scenario -/

/-- Oracles for checks that touch no external system (the metadata branch
reads only the registered `server_region`). -/
def noOracles : Oracles :=
  { execO := fun _ => .error "no db"
    rewriteO := fun _ => none
    sampleO := fun _ _ => .error "no db"
    regexO := fun _ => none
    classifyO := fun _ _ _ _ => none }

/-- The schema map of end-to-end scenario 1. -/
def usersEmailSchema : SchemaMap :=
  [("users", [("email", { compliance_category := some "PII_contact" })])]

/-- Scenario 1's condition with the spec's trigger name
"storage_outside_region". -/
def condRegionTrigger : Condition :=
  { data_category := some "PII", check_type := some "metadata",
    trigger := some "storage_outside_region" }

/-- Scenario 1's condition with the trigger name the code actually knows,
"storage_outside_eu". -/
def condEuTrigger : Condition :=
  { data_category := some "PII", check_type := some "metadata",
    trigger := some "storage_outside_eu" }

/-- C4 counterexample: with the claim's trigger name
"storage_outside_region", `check_metadata_condition` knows no such trigger, so
the evaluator returns no evidence at the claim's exact input — the claim's
promised violation evidence does not exist. -/
theorem metadata_region_trigger_counterexample :
    evaluate_condition_chain noOracles "us-east-1" usersEmailSchema
      condRegionTrigger "users" "email" = none ∧
    (check_metadata_condition "us-east-1" condRegionTrigger).triggered = false := by
  exact ⟨rfl, rfl⟩

/-- C4 amended: the trigger vocabulary of the code names this check
"storage_outside_eu"; for the claim's schema map, data category and server
region (us-east-1, not in the EU allow-list) with that trigger name, the
schema matcher matches exactly (users, email) and the evaluator returns
violation evidence with `condition_matched = "storage_outside_eu"` fired by
the metadata check. -/
theorem metadata_eu_trigger_scenario :
    (check_schema_map_match usersEmailSchema condEuTrigger).matchList =
      [{ table := "users", column := "email", category := "PII_contact",
         sensitivity := "UNKNOWN" }] ∧
    evaluate_condition_chain noOracles "us-east-1" usersEmailSchema
      condEuTrigger "users" "email" =
      some { table_name := "users", column_name := "email", rule_id := "",
             condition_matched := "storage_outside_eu", severity := "MEDIUM",
             remediation_template := "",
             evidence_snapshot :=
               { check_method := "metadata", condition_id := "",
                 raw := [("server_region", .s "us-east-1"),
                         ("eu_regions_checked",
                          .arr ((EU_REGIONS.take 5).map .s))] } } := by
  exact ⟨rfl, rfl⟩

/-! Section C6 — regex trigger threshold -/

/-- C6: for a regex check whose sampling and pattern compilation succeed,
`triggered` is true iff the number of matching non-null samples is at least
half the number of non-null samples (ratio threshold 0.5, inclusive). -/
theorem run_regex_check_threshold
    (sampleO : String → String → Except String (List (Option String)))
    (regexO : String → Option (String → Bool))
    (table column pattern : String) (pat : String → Bool)
    (rows : List (Option String))
    (hpat : regexO pattern = some pat)
    (hrows : sampleO table column = .ok rows)
    (hne : rows.filterMap id ≠ []) :
    ((run_regex_check sampleO regexO table column pattern).triggered = true ↔
      (0.5 : ℚ) * (rows.filterMap id).length ≤
        ((rows.filterMap id).filter pat).length) := by
  have hn : 0 < ((rows.filterMap id).length : ℚ) := by
    have := List.length_pos.mpr hne
    exact_mod_cast this
  simp only [run_regex_check, hpat, hrows]
  rw [if_neg (by simpa using hne)]
  simp only [decide_eq_true_eq, ge_iff_le, le_div_iff₀ hn]

/-- C6 witness: 2 of 4 non-null samples (of 5 fetched rows) match — ratio
exactly 0.5 — and the check triggers. -/
theorem run_regex_check_threshold_witness :
    ((fun _ => some (fun s => s == "a" || s == "b") :
        String → Option (String → Bool)) "p" =
      some (fun s => s == "a" || s == "b")) ∧
    ((fun _ _ => .ok [some "a", none, some "b", some "c", some "d"] :
        String → String → Except String (List (Option String))) "t" "c" =
      .ok [some "a", none, some "b", some "c", some "d"]) ∧
    (([some "a", none, some "b", some "c", some "d"] :
        List (Option String)).filterMap id ≠ []) ∧
    ((run_regex_check (fun _ _ => .ok [some "a", none, some "b", some "c", some "d"])
        (fun _ => some (fun s => s == "a" || s == "b")) "t" "c" "p").triggered = true ↔
      (0.5 : ℚ) * (([some "a", none, some "b", some "c", some "d"] :
          List (Option String)).filterMap id).length ≤
        ((([some "a", none, some "b", some "c", some "d"] :
            List (Option String)).filterMap id).filter
          (fun s => s == "a" || s == "b")).length) :=
  ⟨rfl, rfl, by simp,
   run_regex_check_threshold _ _ "t" "c" "p" _ _ rfl rfl (by simp)⟩

/-- Reduction of `Option.isSome` on a guarded `some`. -/
theorem isSome_ite {β : Type} {c : Prop} [Decidable c] (x : β) :
    (if c then some x else none).isSome ↔ c := by
  split <;> simp_all

/-! Section C5 — LLM-fallback confidence gate -/

/-- The llm_fallback branch of the chain, characterized: with a successful
classification the evaluation triggers iff `is_violation` holds and the
3-decimal-rounded confidence reaches the threshold; with a failed
classification it never triggers. -/
theorem evaluate_chain_llm_branch (o : Oracles) (server_region : String)
    (schema_map : SchemaMap) (cond : Condition) (table column : String)
    (hct : cond.check_type = some "llm_fallback") :
    (∀ vc, o.classifyO column (llm_data_type schema_map table column) []
        (llm_description cond) = some vc →
      ((evaluate_condition_chain o server_region schema_map cond table column).isSome ↔
        (vc.is_violation = true ∧
         settings.llm_fallback_confidence_threshold ≤ roundTo3 vc.confidence))) ∧
    (o.classifyO column (llm_data_type schema_map table column) []
        (llm_description cond) = none →
      evaluate_condition_chain o server_region schema_map cond table column = none) := by
  constructor
  · intro vc hvc
    obtain ⟨viol, conf, reas⟩ := vc
    simp only [evaluate_condition_chain, hct, Option.getD_some]
    rw [if_neg (by decide), if_neg (fun h => absurd h.1 (by decide)),
        if_neg (fun h => absurd h.1 (by decide)), if_pos trivial]
    simp only [llm_fallback_classify, hvc]
    rw [isSome_ite]
  · intro hnone
    simp only [evaluate_condition_chain, hct, Option.getD_some]
    rw [if_neg (by decide), if_neg (fun h => absurd h.1 (by decide)),
        if_neg (fun h => absurd h.1 (by decide)), if_pos trivial]
    simp [llm_fallback_classify, hnone]

/-- C5 counterexample: the chain compares the classifier's confidence only
after `round(confidence, 3)`; an oracle judgment with `is_violation = true`
and raw confidence 0.5996 — strictly below the 0.6 threshold — rounds up to
0.6 and produces a violation, so "a confidence below the threshold never
produces a violation" is false as stated. -/
theorem llm_confidence_rounding_counterexample :
    (0.5996 : ℚ) < settings.llm_fallback_confidence_threshold ∧
    (evaluate_condition_chain
        { noOracles with classifyO := fun _ _ _ _ => some ⟨true, 0.5996, "r"⟩ }
        "us-east-1" [] { check_type := some "llm_fallback" } "users" "email").isSome = true := by
  refine ⟨by norm_num [settings], ?_⟩
  simp only [evaluate_condition_chain]
  rw [if_neg (by decide), if_neg (fun h => absurd h.1 (by decide)),
      if_neg (fun h => absurd h.1 (by decide)), if_pos (by decide)]
  rw [isSome_ite]
  refine ⟨rfl, ?_⟩
  norm_num [llm_fallback_classify, roundTo3, round_eq, settings]

/-- C5 amended: an LLM_FALLBACK evaluation produces a violation iff the
classification oracle reports `is_violation = true` and its confidence,
rounded to 3 decimals by the tool, meets or exceeds the configured threshold
(so a raw confidence within 0.0005 below the threshold can still produce a
violation); a failed oracle call never produces a violation. -/
theorem llm_fallback_confidence_gate (o : Oracles) (server_region : String)
    (schema_map : SchemaMap) (cond : Condition) (table column : String)
    (hct : cond.check_type = some "llm_fallback") :
    (∀ vc, o.classifyO column (llm_data_type schema_map table column) []
        (llm_description cond) = some vc →
      ((evaluate_condition_chain o server_region schema_map cond table column).isSome ↔
        (vc.is_violation = true ∧
         settings.llm_fallback_confidence_threshold ≤ roundTo3 vc.confidence))) ∧
    (o.classifyO column (llm_data_type schema_map table column) []
        (llm_description cond) = none →
      evaluate_condition_chain o server_region schema_map cond table column = none) :=
  evaluate_chain_llm_branch o server_region schema_map cond table column hct

/-- C5 witness: the gate theorem applied to a concrete oracle that reports a
violation with confidence 0.7. -/
theorem llm_fallback_confidence_gate_witness :
    ({ check_type := some "llm_fallback" } : Condition).check_type = some "llm_fallback" ∧
    ((∀ vc, ({ noOracles with classifyO := fun _ _ _ _ => some ⟨true, 0.7, "s"⟩ } :
          Oracles).classifyO "email" (llm_data_type [] "users" "email") []
        (llm_description { check_type := some "llm_fallback" }) = some vc →
      ((evaluate_condition_chain
          { noOracles with classifyO := fun _ _ _ _ => some ⟨true, 0.7, "s"⟩ }
          "us-east-1" [] { check_type := some "llm_fallback" } "users" "email").isSome ↔
        (vc.is_violation = true ∧
         settings.llm_fallback_confidence_threshold ≤ roundTo3 vc.confidence))) ∧
     (({ noOracles with classifyO := fun _ _ _ _ => some ⟨true, 0.7, "s"⟩ } :
          Oracles).classifyO "email" (llm_data_type [] "users" "email") []
        (llm_description { check_type := some "llm_fallback" }) = none →
      evaluate_condition_chain
          { noOracles with classifyO := fun _ _ _ _ => some ⟨true, 0.7, "s"⟩ }
          "us-east-1" [] { check_type := some "llm_fallback" } "users" "email" = none)) :=
  ⟨rfl, llm_fallback_confidence_gate _ "us-east-1" [] _ "users" "email" rfl⟩

/-! Section C1 — supersession rollback scope -/

/-- A concrete ACTIVE rule to be superseded. -/
def oldRuleR1 : Rule :=
  { rule_id := "R1", rule_text := "old text", source_doc := "doc.pdf",
    article_ref := "Art 1", version := 1, status := .ACTIVE,
    obligation_type := "PROHIBITION", violation_conditions := [] }

/-- A concrete replacement rule. -/
def newRuleR2 : Rule :=
  { rule_id := "R2", rule_text := "new text", source_doc := "doc2.pdf",
    article_ref := "Art 1", version := 1, status := .ACTIVE,
    obligation_type := "PROHIBITION", violation_conditions := [] }

/-- A consistent starting state: R1 active in both stores. -/
def supersedeState0 : SysState :=
  { dbc := [oldRuleR1], vs := [rulePoint oldRuleR1] }

/-- C1 counterexample: when the commit fails after the vector-store
deprecation call has already succeeded, the relational store rolls back (no
new rule, old rule still ACTIVE with no `superseded_by`) but the similarity
index keeps the old rule recorded as DEPRECATED — a component of the system
does record the old rule as DEPRECATED, contradicting the claim. -/
theorem supersede_commit_failure_counterexample :
    (supersede_rule .atCommit supersedeState0 "R1" newRuleR2).1 = none ∧
    (supersede_rule .atCommit supersedeState0 "R1" newRuleR2).2.dbc = [oldRuleR1] ∧
    oldRuleR1.status = .ACTIVE ∧ oldRuleR1.superseded_by = none ∧
    ((supersede_rule .atCommit supersedeState0 "R1" newRuleR2).2.vs.map
      (fun p => (p.rule_id, p.status))) = [("R1", "DEPRECATED")] :=
  ⟨rfl, rfl, rfl, rfl, rfl⟩

/-- C1 amended: on a flush failure (of the new-rule insert or of the
deprecation update, the latter occurring before the index write) the whole
operation is rolled back and nothing changes anywhere; on a commit failure the
authoritative store is fully rolled back — the new rule is not persisted and
the old row is unchanged — but when the old rule was found, the similarity
index retains the deprecation written before the commit: rollback does not
extend to the index. -/
theorem supersede_rollback_scope (st : SysState) (old_rule_id : String)
    (new_rule : Rule) :
    (supersede_rule .atFlushNew st old_rule_id new_rule = (none, st)) ∧
    ((get_rule_by_id (st.dbc ++ [new_rule]) old_rule_id).isSome →
      supersede_rule .atFlushOld st old_rule_id new_rule = (none, st)) ∧
    ((supersede_rule .atCommit st old_rule_id new_rule).1 = none ∧
     (supersede_rule .atCommit st old_rule_id new_rule).2.dbc = st.dbc) ∧
    ((get_rule_by_id (st.dbc ++ [new_rule]) old_rule_id).isSome →
      (supersede_rule .atCommit st old_rule_id new_rule).2.vs =
        deprecate_rule_in_vector_store st.vs old_rule_id) := by
  refine ⟨rfl, ?_, ?_, ?_⟩
  · intro h
    cases hfind : get_rule_by_id (st.dbc ++ [new_rule]) old_rule_id with
    | none => rw [hfind] at h; simp at h
    | some r => simp [supersede_rule, hfind]
  · cases hfind : get_rule_by_id (st.dbc ++ [new_rule]) old_rule_id with
    | none => simp [supersede_rule, hfind]
    | some r => simp [supersede_rule, hfind]
  · intro h
    cases hfind : get_rule_by_id (st.dbc ++ [new_rule]) old_rule_id with
    | none => rw [hfind] at h; simp at h
    | some r => simp [supersede_rule, hfind]

/-- C1 witness: the amended theorem applied to the concrete consistent state,
with the old-rule-present hypotheses discharged. -/
theorem supersede_rollback_scope_witness :
    (get_rule_by_id (supersedeState0.dbc ++ [newRuleR2]) "R1").isSome = true ∧
    supersede_rule .atFlushOld supersedeState0 "R1" newRuleR2 =
      (none, supersedeState0) ∧
    (supersede_rule .atCommit supersedeState0 "R1" newRuleR2).2.vs =
      deprecate_rule_in_vector_store supersedeState0.vs "R1" :=
  ⟨rfl,
   (supersede_rollback_scope supersedeState0 "R1" newRuleR2).2.1 (by rfl),
   (supersede_rollback_scope supersedeState0 "R1" newRuleR2).2.2.2 (by rfl)⟩

/-! Section C7 — human-review rules stay DRAFT and unscanned -/

/-- The function `List.find?` skips a prefix in which nothing satisfies the predicate. -/
theorem find?_append_left_none {α : Type} (p : α → Bool) (l1 l2 : List α)
    (h : l1.find? p = none) : (l1 ++ l2).find? p = l2.find? p := by
  induction l1 with
  | nil => rfl
  | cons a t ih =>
    cases hpa : p a with
    | true => simp [List.find?, hpa] at h
    | false =>
      simp only [List.find?, hpa] at h
      simpa [List.find?, hpa] using ih h

/-- Membership survives `take`. -/
theorem mem_of_mem_take {α : Type} {y : α} :
    ∀ (n : Nat) (l : List α), y ∈ l.take n → y ∈ l := by
  intro n l
  induction l generalizing n with
  | nil => simp
  | cons a t ih =>
    cases n with
    | zero => simp
    | succ m =>
      intro h
      rcases List.mem_cons.mp h with h | h
      · exact List.mem_cons.mpr (Or.inl h)
      · exact List.mem_cons.mpr (Or.inr (ih m h))

/-- The function `insertByScore` only inserts its argument. -/
theorem mem_insertByScore {y x : RetrievedHit} :
    ∀ (l : List RetrievedHit), y ∈ insertByScore x l → y = x ∨ y ∈ l := by
  intro l
  induction l with
  | nil => simp [insertByScore]
  | cons a t ih =>
    simp only [insertByScore]
    split
    · intro h
      rcases List.mem_cons.mp h with h | h
      · exact Or.inl h
      · exact Or.inr h
    · intro h
      rcases List.mem_cons.mp h with h | h
      · exact Or.inr (h ▸ List.mem_cons_self a t)
      · rcases ih h with h | h
        · exact Or.inl h
        · exact Or.inr (List.mem_cons.mpr (Or.inr h))

/-- The function `sortByScore` is a permutation-style membership preserver. -/
theorem mem_sortByScore {y : RetrievedHit} :
    ∀ (l : List RetrievedHit), y ∈ sortByScore l → y ∈ l := by
  intro l
  induction l with
  | nil => simp [sortByScore]
  | cons a t ih =>
    intro h
    rcases mem_insertByScore _ h with h | h
    · exact h ▸ List.mem_cons_self a t
    · exact List.mem_cons.mpr (Or.inr (ih h))

/-- Every hit `retrieve_relevant_rules` returns comes from an index point
whose payload status equals the status filter. -/
theorem retrieve_relevant_rules_status (scoreO : String → String → ℚ)
    (vs : VectorStore) (schema_context : String) (top_k : Option Nat)
    (status_filter : String) (hit : RetrievedHit)
    (h : hit ∈ retrieve_relevant_rules scoreO vs schema_context top_k status_filter) :
    ∃ p ∈ vs, p.status = status_filter ∧ hit.rule_id = p.rule_id := by
  have h1 := mem_sortByScore _ (mem_of_mem_take _ _ h)
  rcases List.mem_map.mp h1 with ⟨p, hp, hmk⟩
  rcases List.mem_filter.mp hp with ⟨hpvs, hpst⟩
  refine ⟨p, hpvs, by simpa using hpst, ?_⟩
  rw [← hmk]

/-- After upserting a point, every entry carrying its id is that point. -/
theorem upsert_rule_id_unique (vs : VectorStore) (pt q : VSPoint)
    (hq : q ∈ upsert_rule vs pt) (hid : q.rule_id = pt.rule_id) : q = pt := by
  unfold upsert_rule at hq
  split at hq
  · rcases List.mem_map.mp hq with ⟨x, _, hx⟩
    by_cases hxid : x.rule_id = pt.rule_id
    · rw [if_pos hxid] at hx; exact hx.symm
    · rw [if_neg hxid] at hx; exact absurd (hx ▸ hid) hxid
  · rename_i hany
    rcases List.mem_append.mp hq with h | h
    · exact absurd (List.any_eq_true.mpr ⟨q, h, by simp [hid]⟩) hany
    · simpa using h

/-- C7: when reconciliation answers `human_review`, the persist node stores
the new rule with status DRAFT, and — its index point being written with
payload status "DRAFT" — the scan-time candidate retrieval, which filters the
similarity index on status ACTIVE, never returns its rule id. -/
theorem human_review_rule_draft_not_scanned (failAt : FailPt)
    (nearest : Option NearestHit) (st : SysState) (rd : DecomposedRule)
    (hact : (reconcile_version nearest).action = "human_review")
    (hfresh : get_rule_by_id st.dbc rd.rule_id = none) :
    (∃ r, get_rule_by_id (node_persist_one_rule failAt nearest st rd).dbc
        rd.rule_id = some r ∧ r.status = .DRAFT) ∧
    (∀ scoreO ctx k, rd.rule_id ∉
      (retrieve_relevant_rules scoreO (node_persist_one_rule failAt nearest st rd).vs
        ctx k "ACTIVE").map (·.rule_id)) := by
  have hne : (reconcile_version nearest).action ≠ "supersede" := by
    rw [hact]; decide
  have hpersist : node_persist_one_rule failAt nearest st rd =
      insert_rule st
        { rule_id := rd.rule_id, rule_text := rd.rule_text,
          source_doc := rd.source_doc, article_ref := rd.article_ref,
          version := 1, status := .DRAFT,
          obligation_type := rd.obligation_type,
          data_subject_scope := rd.data_subject_scope,
          violation_conditions := rd.violation_conditions } := by
    unfold node_persist_one_rule
    rw [if_neg hne, hact, if_pos rfl]
  constructor
  · rw [hpersist]
    unfold insert_rule get_rule_by_id
    rw [find?_append_left_none _ _ _ hfresh]
    simp [List.find?]
  · intro scoreO ctx k hmem
    rcases List.mem_map.mp hmem with ⟨hit, hhit, hhid⟩
    rcases retrieve_relevant_rules_status _ _ _ _ _ _ hhit with ⟨p, hpvs, hpst, hpid⟩
    rw [hpersist] at hpvs
    unfold insert_rule at hpvs
    have hq := upsert_rule_id_unique _ _ _ hpvs (by rw [← hpid, hhid]; rfl)
    rw [hq] at hpst
    simp [rulePoint, RuleStatus.value] at hpst

/-- A concrete decomposed rule for the human-review scenario. -/
def reviewRuleRW : DecomposedRule :=
  { rule_id := "RW", rule_text := "new obligation", source_doc := "d.pdf",
    article_ref := "Art 9", obligation_type := "REQUIREMENT",
    violation_conditions := [] }

/-- C7 witness: a nearest neighbour at similarity 0.95 reconciles to
human_review; persisting into empty stores leaves the rule DRAFT and
invisible to ACTIVE-filtered retrieval. -/
theorem human_review_rule_draft_not_scanned_witness :
    (reconcile_version (some ⟨"R9", (0.95 : ℚ)⟩)).action = "human_review" ∧
    get_rule_by_id (⟨[], []⟩ : SysState).dbc reviewRuleRW.rule_id = none ∧
    ((∃ r, get_rule_by_id
        (node_persist_one_rule .noFail (some ⟨"R9", (0.95 : ℚ)⟩) ⟨[], []⟩ reviewRuleRW).dbc
        reviewRuleRW.rule_id = some r ∧ r.status = .DRAFT) ∧
     (∀ scoreO ctx k, reviewRuleRW.rule_id ∉
        (retrieve_relevant_rules scoreO
          (node_persist_one_rule .noFail (some ⟨"R9", (0.95 : ℚ)⟩) ⟨[], []⟩ reviewRuleRW).vs
          ctx k "ACTIVE").map (·.rule_id))) :=
  ⟨by norm_num [reconcile_version, settings], rfl,
   human_review_rule_draft_not_scanned .noFail (some ⟨"R9", (0.95 : ℚ)⟩) ⟨[], []⟩
     reviewRuleRW (by norm_num [reconcile_version, settings]) rfl⟩

/-! Section Scan-driver structure lemmas -/

/-- Value of `pairJoin` on `[]`. -/
theorem pairJoin_nil {α β : Type} : pairJoin ([] : List (List α × List β)) = ([], []) := rfl

/-- Value of `pairJoin` on a cons. -/
theorem pairJoin_cons {α β : Type} (p : List α × List β) (ps : List (List α × List β)) :
    pairJoin (p :: ps) = (p.1 ++ (pairJoin ps).1, p.2 ++ (pairJoin ps).2) := rfl

/-- The join `pairJoin` distributes over append. -/
theorem pairJoin_append {α β : Type} (l1 l2 : List (List α × List β)) :
    pairJoin (l1 ++ l2) =
      ((pairJoin l1).1 ++ (pairJoin l2).1, (pairJoin l1).2 ++ (pairJoin l2).2) := by
  induction l1 with
  | nil => simp [pairJoin_nil]
  | cons p t ih => simp [pairJoin_cons, ih]

/-- First components of a mapped `pairJoin` flatten. -/
theorem pairJoin_map_fst {α β γ : Type} (f : γ → List α × List β) (l : List γ) :
    (pairJoin (l.map f)).1 = l.flatMap (fun x => (f x).1) := by
  induction l with
  | nil => rfl
  | cons x t ih => simp [pairJoin_cons, ih]

/-- Second components of a mapped `pairJoin` vanish when each is empty. -/
theorem pairJoin_map_snd_nil {α β γ : Type} (f : γ → List α × List β) (l : List γ)
    (h : ∀ x ∈ l, (f x).2 = []) : (pairJoin (l.map f)).2 = [] := by
  induction l with
  | nil => rfl
  | cons x t ih =>
    simp only [List.map_cons, pairJoin_cons, h x (by simp)]
    exact ih fun y hy => h y (by simp [hy])

/-- The prefetch cache answers exactly like the authoritative store for every
rule id occurring in the entries (and knows nothing else). -/
theorem lookup_build_cache_aux (ruleDb : RuleDB) :
    ∀ (entries : List REntry) (seen : List String) (rid : String),
      (build_cache_aux ruleDb seen entries).lookup rid =
        if rid ∉ seen ∧ rid ∈ entries.map (·.rule_id) then get_rule_by_id ruleDb rid
        else none := by
  intro entries
  induction entries with
  | nil => intro seen rid; simp [build_cache_aux]
  | cons e rest ih =>
    intro seen rid
    unfold build_cache_aux
    by_cases hseen : e.rule_id ∈ seen
    · rw [if_pos hseen, ih]
      by_cases hr : rid = e.rule_id
      · subst hr
        simp [hseen]
      · simp [List.map_cons, List.mem_cons, hr]
    · rw [if_neg hseen]
      cases hdb : get_rule_by_id ruleDb e.rule_id with
      | some r =>
        by_cases hr : rid = e.rule_id
        · subst hr
          simp [List.lookup, hseen, hdb]
        · have hbeq : (rid == e.rule_id) = false := by
            simp [hr]
          simp only [List.lookup, hbeq]
          rw [ih]
          simp [List.map_cons, List.mem_cons, hr]
      | none =>
        rw [ih]
        by_cases hr : rid = e.rule_id
        · subst hr
          simp [hseen, hdb]
        · simp [List.map_cons, List.mem_cons, hr]

/-- For an entry in the list, the cached per-entry contribution equals the
direct-against-the-store contribution. -/
theorem per_entry_cache_eq (evalO : EvalOracle) (dbConnId : String)
    (schema_map : SchemaMap) (ruleDb : RuleDB) (entries : List REntry)
    (e : REntry) (he : e ∈ entries) :
    per_entry evalO dbConnId schema_map (build_rule_cache ruleDb entries) e =
      per_entry_db evalO dbConnId schema_map ruleDb e := by
  unfold per_entry per_entry_db build_rule_cache
  rw [lookup_build_cache_aux]
  rw [if_pos ⟨by simp, List.mem_map.mpr ⟨e, he, rfl⟩⟩]

/-- The scan loop is the in-order concatenation of independent per-entry
contributions, appended to the incoming error list. -/
theorem node_run_enforcement_checks_eq (evalO : EvalOracle) (ruleDb : RuleDB)
    (schema_map : SchemaMap) (entries : List REntry) (errors0 : List String)
    (dbConnId : String) :
    node_run_enforcement_checks evalO ruleDb schema_map entries errors0 dbConnId =
      ((pairJoin (entries.map (per_entry_db evalO dbConnId schema_map ruleDb))).1,
       errors0 ++ (pairJoin (entries.map (per_entry_db evalO dbConnId schema_map ruleDb))).2) := by
  unfold node_run_enforcement_checks
  dsimp only
  rw [List.map_congr_left
    (fun e he => per_entry_cache_eq evalO dbConnId schema_map ruleDb entries e he)]

/-- Pointwise-equal functions give equal `flatMap`s. -/
theorem flatMap_congr_left {α β : Type} (l : List α) (f g : α → List β)
    (h : ∀ x ∈ l, f x = g x) : l.flatMap f = l.flatMap g := by
  induction l with
  | nil => rfl
  | cons x t ih =>
    simp only [List.flatMap_cons, h x (by simp)]
    rw [ih fun y hy => h y (by simp [hy])]

/-- First components of mapped `pairJoin`s agree when the functions agree on
first components. -/
theorem pairJoin_map_fst_congr {α β γ : Type} (f g : γ → List α × List β)
    (l : List γ) (h : ∀ x ∈ l, (f x).1 = (g x).1) :
    (pairJoin (l.map f)).1 = (pairJoin (l.map g)).1 := by
  rw [pairJoin_map_fst, pairJoin_map_fst]
  exact flatMap_congr_left l _ _ h

/-- The violations of one evaluated match do not depend on which table the
similarity index matched the rule against (only the error string does). -/
theorem eval_match_step_fst (evalO : EvalOracle) (dbConnId t1 t2 rid : String)
    (cond : Condition) (m : SchemaMatch) :
    (eval_match_step evalO dbConnId t1 rid cond m).1 =
      (eval_match_step evalO dbConnId t2 rid cond m).1 := by
  unfold eval_match_step
  cases evalO cond m.table m.column with
  | ok o => cases o <;> rfl
  | error e => rfl

/-- The violations of one condition do not depend on the matched table. -/
theorem per_condition_fst (evalO : EvalOracle) (dbConnId : String)
    (schema_map : SchemaMap) (t1 t2 rid : String) (cond : Condition) :
    (per_condition evalO dbConnId schema_map t1 rid cond).1 =
      (per_condition evalO dbConnId schema_map t2 rid cond).1 := by
  unfold per_condition
  dsimp only
  exact pairJoin_map_fst_congr _ _ _
    (fun m _ => eval_match_step_fst evalO dbConnId t1 t2 rid _ m)

/-- The violations of one fetched rule do not depend on the matched table. -/
theorem per_rule_fst (evalO : EvalOracle) (dbConnId : String)
    (schema_map : SchemaMap) (t1 t2 rid : String) (rule : Rule) :
    (per_rule evalO dbConnId schema_map t1 rid rule).1 =
      (per_rule evalO dbConnId schema_map t2 rid rule).1 := by
  unfold per_rule
  exact pairJoin_map_fst_congr _ _ _
    (fun c _ => per_condition_fst evalO dbConnId schema_map t1 t2 rid c)

/-- One entry's violations are a function of its rule id alone. -/
theorem per_entry_db_fst (evalO : EvalOracle) (dbConnId : String)
    (schema_map : SchemaMap) (ruleDb : RuleDB) (e : REntry) :
    (per_entry_db evalO dbConnId schema_map ruleDb e).1 =
      rule_violation_set evalO dbConnId schema_map ruleDb e.rule_id := by
  unfold per_entry_db rule_violation_set
  cases get_rule_by_id ruleDb e.rule_id with
  | none => rfl
  | some rule => exact per_rule_fst evalO dbConnId schema_map e.matched_table "" e.rule_id rule

/-! Section C9 — duplicate evaluation per matched table -/

/-- C9: the schema matcher runs over the whole schema map, so an entry's
violations depend only on its rule id, not on the table the index matched:
the scan's violation list is the per-rule-id violation set repeated once per
occurrence of the rule in the candidate list — in particular a rule matched
against two tables contributes its violations twice. -/
theorem scan_violations_per_matched_table (evalO : EvalOracle) (ruleDb : RuleDB)
    (schema_map : SchemaMap) (entries : List REntry) (errors0 : List String)
    (dbConnId : String) :
    ((node_run_enforcement_checks evalO ruleDb schema_map entries errors0 dbConnId).1 =
      entries.flatMap (fun e =>
        rule_violation_set evalO dbConnId schema_map ruleDb e.rule_id)) ∧
    (∀ (rid t1 t2 : String) (score : ℚ),
      (node_run_enforcement_checks evalO ruleDb schema_map
        [⟨rid, score, t1⟩, ⟨rid, score, t2⟩] errors0 dbConnId).1 =
        rule_violation_set evalO dbConnId schema_map ruleDb rid ++
          rule_violation_set evalO dbConnId schema_map ruleDb rid) := by
  have hmain : ∀ (es : List REntry),
      (node_run_enforcement_checks evalO ruleDb schema_map es errors0 dbConnId).1 =
        es.flatMap (fun e =>
          rule_violation_set evalO dbConnId schema_map ruleDb e.rule_id) := by
    intro es
    rw [node_run_enforcement_checks_eq]
    dsimp only
    rw [pairJoin_map_fst]
    exact flatMap_congr_left es _ _
      (fun e _ => per_entry_db_fst evalO dbConnId schema_map ruleDb e)
  exact ⟨hmain entries, fun rid t1 t2 score => by rw [hmain]; simp⟩

/-! Section C2 — a doubly-failed SQL check is silent -/

/-- With an executor that fails on every statement (first attempt and
rewritten retry alike), `run_sql_check` reports status "error" whatever the
rewrite oracle answers. -/
theorem run_sql_check_error_of_failing_exec
    (execO : String → Except String (List SqlRow))
    (rewriteO : String → Option MySQLSafeQuery)
    (table column tmpl : String) (errf : String → String)
    (hexec : ∀ s, execO s = .error (errf s)) :
    (run_sql_check execO rewriteO table column tmpl).status = "error" := by
  unfold run_sql_check try_execute
  dsimp only
  simp only [hexec]
  rw [if_neg (by decide)]
  split
  · split
    · simp [hexec]
    · rfl
  · rfl

/-- With an always-failing executor, a SQL-type condition evaluates to `none`:
no violation, no raised exception. -/
theorem evaluate_chain_sql_none_of_failing_exec (o : Oracles)
    (server_region : String) (schema_map : SchemaMap) (cond : Condition)
    (table column : String) (errf : String → String)
    (hexec : ∀ s, o.execO s = .error (errf s))
    (hct : cond.check_type.getD "sql" = "sql")
    (htmpl : truthyStr cond.sql_check_template = true) :
    evaluate_condition_chain o server_region schema_map cond table column = none := by
  have hstatus := run_sql_check_error_of_failing_exec o.execO o.rewriteO
    table column (cond.sql_check_template.getD "") errf hexec
  simp only [evaluate_condition_chain, hct]
  rw [if_neg (by decide), if_pos ⟨trivial, htmpl⟩]
  have hcondFalse : ¬((run_sql_check o.execO o.rewriteO table column
      (cond.sql_check_template.getD "")).status = "ok" ∧
      (run_sql_check o.execO o.rewriteO table column
      (cond.sql_check_template.getD "")).rows.isEmpty = false) := by
    intro hh
    rw [hstatus] at hh
    exact absurd hh.1 (by decide)
  rw [if_neg hcondFalse]

/-- An evaluation that returns (rather than raises) contributes no error. -/
theorem eval_match_step_snd_ok (evalO : EvalOracle) (dbConnId t rid : String)
    (cond : Condition) (m : SchemaMatch) (v : Option Evidence)
    (hv : evalO cond m.table m.column = .ok v) :
    (eval_match_step evalO dbConnId t rid cond m).2 = [] := by
  unfold eval_match_step
  rw [hv]
  cases v <;> rfl

/-- A per-check oracle that never raises adds nothing to the scan error list. -/
theorem scan_errors_unchanged_of_ok (evalO : EvalOracle)
    (hok : ∀ c t cl, ∃ v, evalO c t cl = .ok v) (ruleDb : RuleDB)
    (schema_map : SchemaMap) (entries : List REntry) (errors0 : List String)
    (dbConnId : String) :
    (node_run_enforcement_checks evalO ruleDb schema_map entries errors0 dbConnId).2 =
      errors0 := by
  rw [node_run_enforcement_checks_eq]
  dsimp only
  rw [pairJoin_map_snd_nil]
  · simp
  · intro e _
    unfold per_entry_db
    cases hg : get_rule_by_id ruleDb e.rule_id with
    | none => rfl
    | some rule =>
      unfold per_rule
      apply pairJoin_map_snd_nil
      intro c _
      unfold per_condition
      dsimp only
      apply pairJoin_map_snd_nil
      intro m _
      obtain ⟨v, hv⟩ := hok { c with rule_id := some e.rule_id } m.table m.column
      exact eval_match_step_snd_ok evalO dbConnId e.matched_table e.rule_id _ m v hv

/-- Oracles modelling a target database that rejects every statement, with a
rewrite oracle that always offers a changed rewrite. -/
def failingOracles : Oracles :=
  { noOracles with rewriteO := fun s => some ⟨s ++ " ", true, "retry"⟩ }

/-- A SQL-type condition with a template. -/
def sqlCond : Condition :=
  { check_type := some "sql", sql_check_template := some "SELECT 1 FROM {table}",
    trigger := some "no_encryption" }

/-- A rule whose only condition is the SQL condition. -/
def sqlRuleR3 : Rule :=
  { rule_id := "R3", rule_text := "r3", source_doc := "d", article_ref := "a",
    version := 1, status := .ACTIVE, obligation_type := "REQUIREMENT",
    violation_conditions := [sqlCond] }

/-- C2 counterexample: a concrete scan in which a SQL check's template
execution and its rewritten retry both fail: `run_sql_check` returns an error
result, the evaluator yields no violation, and the completed scan returns an
EMPTY error list — the failed check never appears in the errors returned by
the scan, contradicting the claimed propagation. -/
theorem sql_error_swallowed_counterexample :
    (run_sql_check failingOracles.execO failingOracles.rewriteO "users" "email"
      "SELECT 1 FROM {table}").status = "error" ∧
    evaluate_condition_chain failingOracles "us-east-1" usersEmailSchema sqlCond
      "users" "email" = none ∧
    node_run_enforcement_checks
      (fun c t cl => .ok (evaluate_condition_chain failingOracles "us-east-1"
        usersEmailSchema c t cl))
      [sqlRuleR3] usersEmailSchema [⟨"R3", 0.9, "users"⟩] [] "db1" = ([], []) :=
  ⟨rfl, rfl, rfl⟩

/-- C2 amended: when a SQL-type condition's template execution fails and the
rewrite-and-retry fails too, the check's own result records the error (status
"error") and the evaluation yields no violation and never aborts the scan —
but the error is NOT propagated to the scan-scoped error list: the evaluation
chain returns `None` without raising, and only raised exceptions reach that
list, so the scan's errors are exactly what they were before. -/
theorem sql_double_failure_error_swallowed (o : Oracles) (server_region : String)
    (schema_map : SchemaMap) (cond : Condition) (table column : String)
    (errf : String → String)
    (hexec : ∀ s, o.execO s = .error (errf s))
    (hct : cond.check_type.getD "sql" = "sql")
    (htmpl : truthyStr cond.sql_check_template = true) :
    (run_sql_check o.execO o.rewriteO table column
      (cond.sql_check_template.getD "")).status = "error" ∧
    evaluate_condition_chain o server_region schema_map cond table column = none ∧
    (∀ (evalO : EvalOracle), (∀ c t cl, ∃ v, evalO c t cl = .ok v) →
      ∀ ruleDb sm2 entries errors0 dbid,
        (node_run_enforcement_checks evalO ruleDb sm2 entries errors0 dbid).2 =
          errors0) :=
  ⟨run_sql_check_error_of_failing_exec o.execO o.rewriteO table column _ errf hexec,
   evaluate_chain_sql_none_of_failing_exec o server_region schema_map cond
     table column errf hexec hct htmpl,
   fun evalO hok ruleDb sm2 entries errors0 dbid =>
     scan_errors_unchanged_of_ok evalO hok ruleDb sm2 entries errors0 dbid⟩

/-- C2 witness: the amended theorem applied to the concrete failing oracles
and SQL condition. -/
theorem sql_double_failure_error_swallowed_witness :
    (∀ s, failingOracles.execO s = .error ((fun _ => "no db") s)) ∧
    sqlCond.check_type.getD "sql" = "sql" ∧
    truthyStr sqlCond.sql_check_template = true ∧
    ((run_sql_check failingOracles.execO failingOracles.rewriteO "users" "email"
      (sqlCond.sql_check_template.getD "")).status = "error" ∧
    evaluate_condition_chain failingOracles "eu-west-1" usersEmailSchema sqlCond
      "users" "email" = none ∧
    (∀ (evalO : EvalOracle), (∀ c t cl, ∃ v, evalO c t cl = .ok v) →
      ∀ ruleDb sm2 entries errors0 dbid,
        (node_run_enforcement_checks evalO ruleDb sm2 entries errors0 dbid).2 =
          errors0)) :=
  ⟨fun _ => rfl, rfl, rfl,
   sql_double_failure_error_swallowed failingOracles "eu-west-1" usersEmailSchema
     sqlCond "users" "email" (fun _ => "no db") (fun _ => rfl) rfl rfl⟩

/-! Section C8 — scans complete with per-check error isolation -/

/-- C8: the scan decomposes entry by entry — a failing check or a failing
violation insert contributes only its own stringified error message and
removes nothing else: (i) the checks of `l1 ++ l2` produce the concatenation
of the two sub-scans' violations and error lists; (ii) an entry whose rule id
the authoritative store lacks is skipped exactly (the scan equals the scan
without it — logged, not fatal); (iii) persisting `v1 ++ v2` persists each
violation independently, with per-violation failures appended as errors. -/
theorem scan_completion_isolation (evalO : EvalOracle) (ruleDb : RuleDB)
    (schema_map : SchemaMap) (l1 l2 : List REntry) (errors0 : List String)
    (dbConnId : String) (persistO : Evidence → Except String Nat)
    (v1 v2 : List Evidence) (perrors : List String) (bad : REntry)
    (hbad : get_rule_by_id ruleDb bad.rule_id = none) :
    (node_run_enforcement_checks evalO ruleDb schema_map (l1 ++ l2) errors0 dbConnId =
      ((node_run_enforcement_checks evalO ruleDb schema_map l1 errors0 dbConnId).1 ++
        (node_run_enforcement_checks evalO ruleDb schema_map l2 [] dbConnId).1,
       (node_run_enforcement_checks evalO ruleDb schema_map l1 errors0 dbConnId).2 ++
        (node_run_enforcement_checks evalO ruleDb schema_map l2 [] dbConnId).2)) ∧
    (node_run_enforcement_checks evalO ruleDb schema_map (l1 ++ bad :: l2) errors0 dbConnId =
      node_run_enforcement_checks evalO ruleDb schema_map (l1 ++ l2) errors0 dbConnId) ∧
    (node_persist_violations persistO (v1 ++ v2) perrors =
      ((node_persist_violations persistO v1 perrors).1 ++
        (node_persist_violations persistO v2 []).1,
       (node_persist_violations persistO v1 perrors).2 ++
        (node_persist_violations persistO v2 []).2)) := by
  have hb : per_entry_db evalO dbConnId schema_map ruleDb bad = ([], []) := by
    unfold per_entry_db
    rw [hbad]
  refine ⟨?_, ?_, ?_⟩
  · rw [node_run_enforcement_checks_eq, node_run_enforcement_checks_eq,
        node_run_enforcement_checks_eq]
    dsimp only
    rw [List.map_append, pairJoin_append]
    simp [List.append_assoc]
  · rw [node_run_enforcement_checks_eq, node_run_enforcement_checks_eq]
    rw [List.map_append, List.map_append, List.map_cons, pairJoin_append,
        pairJoin_append, pairJoin_cons, hb]
    simp
  · unfold node_persist_violations
    dsimp only
    rw [List.map_append, pairJoin_append]
    simp [List.append_assoc]

/-- C8 witness: the isolation theorem applied to a concrete scan whose
candidate entry is absent from the authoritative store. -/
theorem scan_completion_isolation_witness :
    get_rule_by_id ([] : RuleDB) (REntry.rule_id ⟨"RX", 0.5, "t"⟩) = none ∧
    node_run_enforcement_checks (fun _ _ _ => .ok none) [] usersEmailSchema
        ([] ++ (⟨"RX", 0.5, "t"⟩ : REntry) :: []) ["earlier error"] "db1" =
      node_run_enforcement_checks (fun _ _ _ => .ok none) [] usersEmailSchema
        ([] ++ []) ["earlier error"] "db1" :=
  ⟨rfl,
   (scan_completion_isolation (fun _ _ _ => .ok none) [] usersEmailSchema [] []
     ["earlier error"] "db1" (fun _ => .ok 1) [] [] [] ⟨"RX", 0.5, "t"⟩ rfl).2.1⟩

end Sentinel
